import Mathlib

/-!
Shallow embedding of the adscanner reputation-aggregation core:
the check route's aggregation (server/src/routes/check.ts), the
TTL cache (server/src/services/cache.ts), the retry wrapper
(server/src/utils/retry.ts), and the ingress fixed-window rate
limiter (server/src/middleware/rateLimit.ts).

Numbers that JavaScript holds as `number` are modelled as ℚ where
division occurs (risk scores) and as ℕ for millisecond timestamps
and counters. Promise settlement is modelled by an explicit
`Settled` sum; thrown errors by `Except`.
-/

namespace AdScanner

/-- Risk classification bands, from `getRiskLevel` in check.ts. -/
inductive RiskLevel
  | safe
  | low
  | medium
  | high
  | dangerous
deriving DecidableEq, Repr

/-- `getRiskLevel` from check.ts: successive `score < k` tests. -/
def getRiskLevel (score : ℚ) : RiskLevel :=
  if score < 20 then .safe
  else if score < 40 then .low
  else if score < 60 then .medium
  else if score < 80 then .high
  else .dangerous

/-- Normalized VirusTotal adapter result; only `riskScore` is inspected
by the aggregation and cache, the rest of the record is opaque
pass-through (modelled as one opaque payload field). -/
structure VirusTotalResult where
  riskScore : ℚ
  payload : String
deriving DecidableEq, Repr

/-- Normalized Google Safe Browsing adapter result; as above only
`riskScore` is inspected by the core. -/
structure GoogleSafeBrowsingResult where
  riskScore : ℚ
  payload : String
deriving DecidableEq, Repr

/-- One entry of the response's `sources` array, from utils/sources.ts.
A `null` adapter result becomes a placeholder with score 0 and an
error detail (`unavailable := true`). -/
structure SourceResult where
  source : String
  score : ℚ
  unavailable : Bool
deriving DecidableEq, Repr

/-- `buildVirusTotalSource` from utils/sources.ts. -/
def buildVirusTotalSource : Option VirusTotalResult → SourceResult
  | some r => { source := "virustotal", score := r.riskScore, unavailable := false }
  | none => { source := "virustotal", score := 0, unavailable := true }

/-- `buildGoogleSafeBrowsingSource` from utils/sources.ts. -/
def buildGoogleSafeBrowsingSource : Option GoogleSafeBrowsingResult → SourceResult
  | some r => { source := "google-safe-browsing", score := r.riskScore, unavailable := false }
  | none => { source := "google-safe-browsing", score := 0, unavailable := true }

/-! ## Cache store (services/cache.ts over the url_checks table) -/

/-- `DEFAULT_TTL = 24 * 60 * 60 * 1000` ms. -/
def DEFAULT_TTL : ℕ := 24 * 60 * 60 * 1000

/-- One row of the `url_checks` table, as written by `setCachedResult`.
Serialized JSON payloads are modelled by the values themselves
(JSON.stringify/parse round-trip taken as the identity). -/
structure CacheRow where
  domain : String
  virusTotalScore : Option ℚ
  virusTotalData : Option VirusTotalResult
  googleSafeBrowsingScore : Option ℚ
  googleSafeBrowsingData : Option GoogleSafeBrowsingResult
  combinedRiskScore : ℚ
  createdAt : ℕ
  expiresAt : ℕ
deriving DecidableEq, Repr

/-- The backing table, in insertion order. -/
abbrev CacheStore := List CacheRow

/-- The record `getCachedResult` returns after deserialization. -/
structure CachedCheck where
  domain : String
  virusTotalResult : Option VirusTotalResult
  googleSafeBrowsingResult : Option GoogleSafeBrowsingResult
  combinedRiskScore : ℚ
  cachedAt : ℕ
  expiresAt : ℕ
deriving DecidableEq, Repr

/-- `isExpired` from cache.ts: `now > cachedCheck.expiresAt`. -/
def isExpired (now : ℕ) (row : CacheRow) : Bool := now > row.expiresAt

/-- The row `setCachedResult` inserts: per-source score and serialized
data (null when the source failed), combined score, `createdAt = now`,
`expiresAt = now + DEFAULT_TTL`. -/
def mkCacheRow (domain : String) (vt : Option VirusTotalResult)
    (gsb : Option GoogleSafeBrowsingResult) (combined : ℚ) (now : ℕ) : CacheRow :=
  { domain := domain,
    virusTotalScore := vt.map (·.riskScore),
    virusTotalData := vt,
    googleSafeBrowsingScore := gsb.map (·.riskScore),
    googleSafeBrowsingData := gsb,
    combinedRiskScore := combined,
    createdAt := now,
    expiresAt := now + DEFAULT_TTL }

/-- `getCachedResult` from cache.ts, after `extractDomain`: SELECT the
rows for the domain, take the first, return none when absent or
expired, else the deserialized record. -/
def getCachedByDomain (store : CacheStore) (domain : String) (now : ℕ) :
    Option CachedCheck :=
  match (store.filter (fun r => r.domain == domain)).head? with
  | none => none
  | some row =>
    if isExpired now row then none
    else some { domain := row.domain,
                virusTotalResult := row.virusTotalData,
                googleSafeBrowsingResult := row.googleSafeBrowsingData,
                combinedRiskScore := row.combinedRiskScore,
                cachedAt := row.createdAt,
                expiresAt := row.expiresAt }

/-- `setCachedResult` from cache.ts, after `extractDomain`: DELETE all
rows for the domain, then INSERT the fresh row. -/
def setCachedByDomain (store : CacheStore) (domain : String)
    (vt : Option VirusTotalResult) (gsb : Option GoogleSafeBrowsingResult)
    (combined : ℚ) (now : ℕ) : CacheStore :=
  (store.filter (fun r => !(r.domain == domain))) ++ [mkCacheRow domain vt gsb combined now]

/-! ## Check-route aggregation (routes/check.ts, cache branch onward) -/

/-- Why a source promise rejected; determined by the adapter code in
services/virusTotal.ts / services/googleSafeBrowsing.ts. -/
inductive UpstreamError
  | rateLimit
  | network
  | timeout
  | generic
deriving DecidableEq, Repr

/-- Outcome of `Promise.allSettled` for one source call. -/
inductive Settled (α : Type)
  | fulfilled (v : α)
  | rejected (e : UpstreamError)
deriving DecidableEq, Repr

/-- `settled.status === 'fulfilled' ? settled.value : null`. -/
def Settled.toOption : Settled α → Option α
  | .fulfilled v => some v
  | .rejected _ => none

/-- The check route's response in the modelled region: a successful
`CheckResponse`, or the 502 "All reputation sources failed" error. -/
inductive CheckOutcome
  | ok (riskScore : ℚ) (riskLevel : RiskLevel) (sources : List SourceResult) (cached : Bool)
  | allSourcesFailed
deriving DecidableEq, Repr

/-- Risk score carried by a successful response. -/
def CheckOutcome.scoreOf : CheckOutcome → Option ℚ
  | .ok s _ _ _ => some s
  | .allSourcesFailed => none

/-- Risk level carried by a successful response. -/
def CheckOutcome.levelOf : CheckOutcome → Option RiskLevel
  | .ok _ l _ _ => some l
  | .allSourcesFailed => none

/-- The POST /api/check handler from routes/check.ts, from the cache
lookup onward (URL validation precedes domain extraction and is out of
this model; the settled pair is the outcome of `Promise.allSettled`
over the two adapter calls). Returns the response together with the
cache store after the request. -/
def handleCheck (store : CacheStore) (now : ℕ) (domain : String)
    (vtSettled : Settled VirusTotalResult)
    (gsbSettled : Settled GoogleSafeBrowsingResult) :
    CheckOutcome × CacheStore :=
  match getCachedByDomain store domain now with
  | some cached =>
    let sources := [buildVirusTotalSource cached.virusTotalResult,
                    buildGoogleSafeBrowsingSource cached.googleSafeBrowsingResult]
    let scores :=
      (match cached.virusTotalResult with | some r => [r.riskScore] | none => []) ++
      (match cached.googleSafeBrowsingResult with | some r => [r.riskScore] | none => [])
    let riskScore := scores.sum / (scores.length : ℚ)
    (.ok riskScore (getRiskLevel riskScore) sources true, store)
  | none =>
    let virusTotalResult := vtSettled.toOption
    let safeBrowsingResult := gsbSettled.toOption
    if virusTotalResult = none ∧ safeBrowsingResult = none then
      (.allSourcesFailed, store)
    else
      let sources := [buildVirusTotalSource virusTotalResult,
                      buildGoogleSafeBrowsingSource safeBrowsingResult]
      let scores :=
        (match virusTotalResult with | some r => [r.riskScore] | none => []) ++
        (match safeBrowsingResult with | some r => [r.riskScore] | none => [])
      let riskScore := scores.sum / (scores.length : ℚ)
      let store2 := setCachedByDomain store domain virusTotalResult safeBrowsingResult riskScore now
      (.ok riskScore (getRiskLevel riskScore) sources false, store2)

/-! ## Retry wrapper (utils/retry.ts) -/

/-- The options record of `retryWithBackoff`, with its defaults.
`retries` bounds the number of re-attempts after the first call, so
the total attempt budget is `retries + 1`. -/
structure RetryOptions (ε : Type) where
  retries : ℕ := 3
  initialDelayMs : ℚ := 1000
  factor : ℚ := 2
  shouldRetry : ε → Bool := fun _ => true

deriving instance DecidableEq for Except

/-- Observable trace of one `retryWithBackoff` run: how many times the
operation was invoked, the successive sleep durations (ms) between
attempts, and the final outcome (returned value or thrown error). -/
structure RetryTrace (ε α : Type) where
  calls : ℕ
  sleeps : List ℚ
  outcome : Except ε α
deriving DecidableEq, Repr

/-- The loop body of `retryWithBackoff`, indexed by the current
`attempt` and the remaining budget `fuel = retries - attempt`: on an
error, throw when the budget is exhausted or `shouldRetry` rejects the
error, else sleep `initialDelayMs * factor ^ attempt` and recurse.
The operation is modelled as a function from the attempt index to
that attempt's outcome. -/
def retryFrom (op : ℕ → Except ε α) (opts : RetryOptions ε) :
    ℕ → ℕ → RetryTrace ε α
  | attempt, fuel =>
    match op attempt with
    | .ok v => { calls := 1, sleeps := [], outcome := .ok v }
    | .error e =>
      match fuel with
      | 0 => { calls := 1, sleeps := [], outcome := .error e }
      | fuel' + 1 =>
        if opts.shouldRetry e then
          let d := opts.initialDelayMs * opts.factor ^ attempt
          let rest := retryFrom op opts (attempt + 1) fuel'
          { calls := rest.calls + 1, sleeps := d :: rest.sleeps, outcome := rest.outcome }
        else
          { calls := 1, sleeps := [], outcome := .error e }

/-- `retryWithBackoff` from utils/retry.ts: run the loop from attempt 0
with the full budget. -/
def retryWithBackoff (op : ℕ → Except ε α) (opts : RetryOptions ε) : RetryTrace ε α :=
  retryFrom op opts 0 opts.retries

/-- The retry predicate the Google Safe Browsing adapter passes to
`retryWithBackoff`: retry only NetworkError and TimeoutError. -/
def gsbShouldRetry : UpstreamError → Bool
  | .network => true
  | .timeout => true
  | _ => false

/-! ## Ingress rate limiter (middleware/rateLimit.ts) -/

/-- One window entry of the limiter's Map. -/
structure RateLimitEntry where
  count : ℕ
  resetTime : ℕ
deriving DecidableEq, Repr

/-- The limiter's `Map<string, RateLimitEntry>`, in insertion order. -/
abbrev RateLimitStore := List (String × RateLimitEntry)

/-- `LIMIT = 60` requests per window. -/
def LIMIT : ℕ := 60

/-- `WINDOW = 60 * 1000` ms. -/
def WINDOW : ℕ := 60 * 1000

/-- `Map.get`. -/
def storeGet (store : RateLimitStore) (k : String) : Option RateLimitEntry :=
  (store.find? (fun p => p.1 == k)).map (·.2)

/-- `Map.set`: replace in place when the key exists, else append. -/
def storeSet (store : RateLimitStore) (k : String) (v : RateLimitEntry) : RateLimitStore :=
  if (store.find? (fun p => p.1 == k)).isSome then
    store.map (fun p => if p.1 == k then (k, v) else p)
  else
    store ++ [(k, v)]

/-- `Map.delete`. -/
def storeDelete (store : RateLimitStore) (k : String) : RateLimitStore :=
  store.filter (fun p => !(p.1 == k))

/-- `getClientIp` reads a header that is either absent (undefined) or a
string; JavaScript `||` also skips an empty string (falsy). -/
def headerValue : Option String → Option String
  | some s => if s = "" then none else some s
  | none => none

/-- `getClientIp` from middleware/rateLimit.ts:
`x-forwarded-for || x-real-ip || 'unknown'`. -/
def getClientIp (xForwardedFor xRealIp : Option String) : String :=
  match headerValue xForwardedFor with
  | some v => v
  | none =>
    match headerValue xRealIp with
    | some v => v
    | none => "unknown"

/-- What one pass through `rateLimitMiddleware` exposes: the allow/deny
decision, the `X-RateLimit-*` headers set on every response, and for a
429 rejection the body's `retryAfter` (seconds) and `limit` fields. -/
structure RateLimitDecision where
  allowed : Bool
  remaining : ℕ
  limitHeader : ℕ
  resetHeader : ℕ
  retryAfter : Option ℕ
  limitBody : Option ℕ
deriving DecidableEq, Repr

/-- `rateLimitMiddleware` from middleware/rateLimit.ts: reset the entry
when absent or `now > resetTime` (deleting the stale one), increment,
store, then reject with 429 when the count exceeds the limit.
`remaining = max 0 (LIMIT - count)` is ℕ subtraction; `retryAfter` is
`ceil((resetTime - now) / 1000)` seconds. -/
def rateLimitStep (store : RateLimitStore) (clientIp : String) (now : ℕ) :
    RateLimitDecision × RateLimitStore :=
  let entry0 := storeGet store clientIp
  let needReset :=
    match entry0 with
    | none => true
    | some e => now > e.resetTime
  let store1 := if needReset && entry0.isSome then storeDelete store clientIp else store
  let entry1 :=
    if needReset then ({ count := 0, resetTime := now + WINDOW } : RateLimitEntry)
    else entry0.getD { count := 0, resetTime := 0 }
  let entry2 : RateLimitEntry := { entry1 with count := entry1.count + 1 }
  let store2 := storeSet store1 clientIp entry2
  let remaining := LIMIT - entry2.count
  let resetIn := (entry2.resetTime - now + 999) / 1000
  if entry2.count > LIMIT then
    ({ allowed := false, remaining := remaining, limitHeader := LIMIT,
       resetHeader := entry2.resetTime, retryAfter := some resetIn,
       limitBody := some LIMIT }, store2)
  else
    ({ allowed := true, remaining := remaining, limitHeader := LIMIT,
       resetHeader := entry2.resetTime, retryAfter := none,
       limitBody := none }, store2)

/-- `n` consecutive requests for the same client key, all at time `now`;
returns the store after them. -/
def rateLimitRun (store : RateLimitStore) (clientIp : String) (now : ℕ) : ℕ → RateLimitStore
  | 0 => store
  | n + 1 => rateLimitRun (rateLimitStep store clientIp now).2 clientIp now n

/-! ## Sequential cache writes (for the one-live-entry invariant) -/

/-- Arguments of one `setCachedResult` call. -/
structure PutArgs where
  vt : Option VirusTotalResult
  gsb : Option GoogleSafeBrowsingResult
  combined : ℚ
  now : ℕ
deriving DecidableEq, Repr

/-- Apply a sequence of `setCachedResult` calls for one domain. -/
def applyPuts (store : CacheStore) (domain : String) : List PutArgs → CacheStore
  | [] => store
  | w :: ws => applyPuts (setCachedByDomain store domain w.vt w.gsb w.combined w.now) domain ws

/-! ## Theorems -/

/-- C1 (code-bug evidence): on a cache miss where the VirusTotal call
rejects with a rate-limit error and the Safe Browsing call succeeds
with score 70, the handler does NOT terminate with the rate-limit
error: `Promise.allSettled` swallows the rejection, the rate-limited
source is degraded to a score-0 placeholder, and the request succeeds
with riskScore 70 / riskLevel high. -/
theorem rate_limit_rejection_degraded :
    (handleCheck [] 0 "malicious.example" (.rejected .rateLimit)
      (.fulfilled { riskScore := 70, payload := "" })).1
    = .ok 70 .high
        [{ source := "virustotal", score := 0, unavailable := true },
         { source := "google-safe-browsing", score := 70, unavailable := false }] false := by
  simp [handleCheck, getCachedByDomain, Settled.toOption, buildVirusTotalSource,
    buildGoogleSafeBrowsingSource, getRiskLevel]
  norm_num

/-- C2: on a cache miss with at least one succeeding source, the
returned riskScore is the mean of the succeeded sources' scores only —
both succeed: (a+b)/2; exactly one succeeds: that source's score alone
(the failed source contributes to neither sum nor divisor), with the
risk level derived from that mean. -/
theorem aggregate_mean_of_succeeded (store : CacheStore) (now : ℕ) (d : String)
    (a : VirusTotalResult) (b : GoogleSafeBrowsingResult) (e e' : UpstreamError)
    (hmiss : getCachedByDomain store d now = none) :
    ((handleCheck store now d (.fulfilled a) (.fulfilled b)).1.scoreOf
        = some ((a.riskScore + b.riskScore) / 2)) ∧
    ((handleCheck store now d (.rejected e) (.fulfilled b)).1.scoreOf = some b.riskScore) ∧
    ((handleCheck store now d (.rejected e) (.fulfilled b)).1.levelOf
        = some (getRiskLevel b.riskScore)) ∧
    ((handleCheck store now d (.fulfilled a) (.rejected e')).1.scoreOf = some a.riskScore) := by
  refine ⟨?_, ?_, ?_, ?_⟩ <;>
    simp [handleCheck, hmiss, Settled.toOption, CheckOutcome.scoreOf, CheckOutcome.levelOf]

/-- C2 witness: one source fails, the other succeeds with score 70 —
the aggregation returns riskScore 70, not a global failure. -/
theorem aggregate_mean_of_succeeded_witness :
    ((handleCheck [] 0 "example.com" (.rejected .network)
      (.fulfilled { riskScore := 70, payload := "" })).1.scoreOf = some 70) ∧
    ((handleCheck [] 0 "example.com" (.rejected .network)
      (.fulfilled { riskScore := 70, payload := "" })).1.levelOf = some .high) := by
  have h := aggregate_mean_of_succeeded [] 0 "example.com"
    { riskScore := 0, payload := "" } { riskScore := 70, payload := "" }
    .network .network rfl
  refine ⟨h.2.1, ?_⟩
  rw [h.2.2.1]
  norm_num [getRiskLevel]

/-- C3: the risk level follows the fixed bands with inclusive lower and
exclusive upper bounds — [0,20) safe, [20,40) low, [40,60) medium,
[60,80) high, [80,100] dangerous — and two sources returning 10 and 20
yield combined score 15 and riskLevel safe. -/
theorem risk_level_bands (s : ℚ) (h0 : 0 ≤ s) (h100 : s ≤ 100) :
    (s < 20 → getRiskLevel s = .safe) ∧
    (20 ≤ s → s < 40 → getRiskLevel s = .low) ∧
    (40 ≤ s → s < 60 → getRiskLevel s = .medium) ∧
    (60 ≤ s → s < 80 → getRiskLevel s = .high) ∧
    (80 ≤ s → getRiskLevel s = .dangerous) ∧
    (handleCheck [] 0 "example.com"
      (.fulfilled { riskScore := 10, payload := "" })
      (.fulfilled { riskScore := 20, payload := "" })).1.scoreOf = some 15 ∧
    (handleCheck [] 0 "example.com"
      (.fulfilled { riskScore := 10, payload := "" })
      (.fulfilled { riskScore := 20, payload := "" })).1.levelOf = some .safe := by
  refine ⟨?_, ?_, ?_, ?_, ?_, ?_, ?_⟩
  · intro h; rw [getRiskLevel, if_pos h]
  · intro hlo hhi
    rw [getRiskLevel, if_neg (by linarith), if_pos hhi]
  · intro hlo hhi
    rw [getRiskLevel, if_neg (by linarith), if_neg (by linarith), if_pos hhi]
  · intro hlo hhi
    rw [getRiskLevel, if_neg (by linarith), if_neg (by linarith), if_neg (by linarith),
      if_pos hhi]
  · intro hlo
    rw [getRiskLevel, if_neg (by linarith), if_neg (by linarith), if_neg (by linarith),
      if_neg (by linarith)]
  · simp [handleCheck, getCachedByDomain, Settled.toOption, CheckOutcome.scoreOf]
    norm_num
  · simp [handleCheck, getCachedByDomain, Settled.toOption, CheckOutcome.levelOf]
    norm_num [getRiskLevel]

/-- C3 witness: at score 15 the level is safe. -/
theorem risk_level_bands_witness : getRiskLevel 15 = .safe :=
  (risk_level_bands 15 (by norm_num) (by norm_num)).1 (by norm_num)

/-- C6: on a cache miss where every source call settles as a rejection,
the request terminates with the "All reputation sources failed" error
response and the cache store is unchanged. -/
theorem all_sources_failed_no_write (store : CacheStore) (now : ℕ) (d : String)
    (e e' : UpstreamError) (hmiss : getCachedByDomain store d now = none) :
    handleCheck store now d (.rejected e) (.rejected e') = (.allSourcesFailed, store) := by
  simp [handleCheck, hmiss, Settled.toOption]

/-- C6 witness: both sources rejecting on an empty cache yields the
all-sources-failed error with no cache write. -/
theorem all_sources_failed_no_write_witness :
    handleCheck [] 0 "example.com" (.rejected .network) (.rejected .timeout)
      = (.allSourcesFailed, []) :=
  all_sources_failed_no_write [] 0 "example.com" .network .timeout rfl

/-- After a `setCachedResult` write for a domain, the rows the table
holds for that domain are exactly the freshly inserted one. -/
theorem filter_setCachedByDomain (store : CacheStore) (d : String)
    (vt : Option VirusTotalResult) (gsb : Option GoogleSafeBrowsingResult)
    (combined : ℚ) (now : ℕ) :
    (setCachedByDomain store d vt gsb combined now).filter (fun r => r.domain == d)
      = [mkCacheRow d vt gsb combined now] := by
  unfold setCachedByDomain
  rw [List.filter_append, List.filter_filter]
  simp [mkCacheRow]

/-- C4: after `put(D, R)` at time `now`, a `get(D)` at time `t` returns
the entry carrying R's per-source results and combined score whenever
`t ≤ createdAt + TTL`, and returns none once `t` exceeds
`createdAt + TTL`. -/
theorem cache_put_get_ttl (store : CacheStore) (d : String)
    (vt : Option VirusTotalResult) (gsb : Option GoogleSafeBrowsingResult)
    (combined : ℚ) (now t : ℕ) :
    (t ≤ now + DEFAULT_TTL →
      getCachedByDomain (setCachedByDomain store d vt gsb combined now) d t
        = some { domain := d, virusTotalResult := vt, googleSafeBrowsingResult := gsb,
                 combinedRiskScore := combined, cachedAt := now,
                 expiresAt := now + DEFAULT_TTL }) ∧
    (now + DEFAULT_TTL < t →
      getCachedByDomain (setCachedByDomain store d vt gsb combined now) d t = none) := by
  unfold getCachedByDomain
  rw [filter_setCachedByDomain]
  constructor
  · intro h
    simp [isExpired, mkCacheRow, Nat.not_lt.2 h]
  · intro h
    simp [isExpired, mkCacheRow, h]

/-- C4 witness: a put at time 0 is retrievable with its data at exactly
the TTL boundary and gone one millisecond after it. -/
theorem cache_put_get_ttl_witness :
    getCachedByDomain
        (setCachedByDomain [] "example.com" (some { riskScore := 70, payload := "vt" })
          none 70 0) "example.com" DEFAULT_TTL
      = some { domain := "example.com",
               virusTotalResult := some { riskScore := 70, payload := "vt" },
               googleSafeBrowsingResult := none, combinedRiskScore := 70,
               cachedAt := 0, expiresAt := 0 + DEFAULT_TTL } ∧
    getCachedByDomain
        (setCachedByDomain [] "example.com" (some { riskScore := 70, payload := "vt" })
          none 70 0) "example.com" (DEFAULT_TTL + 1) = none :=
  ⟨(cache_put_get_ttl [] "example.com" (some { riskScore := 70, payload := "vt" })
      none 70 0 DEFAULT_TTL).1 (by omega),
   (cache_put_get_ttl [] "example.com" (some { riskScore := 70, payload := "vt" })
      none 70 0 (DEFAULT_TTL + 1)).2 (by omega)⟩

/-- C5: after any nonempty sequence of sequential puts for a domain,
the table holds exactly one row for that domain — the fresh row of the
last write, with `createdAt` its `now` and `expiresAt = now + TTL` —
so every write supersedes the prior entry via delete-then-insert. -/
theorem cache_single_live_entry (store : CacheStore) (d : String)
    (ws : List PutArgs) (w : PutArgs) :
    (applyPuts store d (ws ++ [w])).filter (fun r => r.domain == d)
        = [mkCacheRow d w.vt w.gsb w.combined w.now] ∧
    ((applyPuts store d (ws ++ [w])).filter (fun r => r.domain == d)).length = 1 := by
  have main : ∀ ws : List PutArgs, ∀ store : CacheStore,
      (applyPuts store d (ws ++ [w])).filter (fun r => r.domain == d)
        = [mkCacheRow d w.vt w.gsb w.combined w.now] := by
    intro ws
    induction ws with
    | nil =>
      intro store
      simpa [applyPuts] using filter_setCachedByDomain store d w.vt w.gsb w.combined w.now
    | cons w' ws ih =>
      intro store
      simpa [applyPuts] using ih _
  exact ⟨main ws store, by rw [main ws store]; rfl⟩

/-- C7: when the first attempt fails with an error that `shouldRetry`
classifies non-retryable, the retry wrapper performs no further
attempts, sleeps not at all, and surfaces that same error unchanged
after exactly one invocation of the operation. -/
theorem retry_non_retryable_single_attempt {ε α : Type} (op : ℕ → Except ε α)
    (opts : RetryOptions ε) (e : ε) (hop : op 0 = .error e)
    (hnr : opts.shouldRetry e = false) :
    retryWithBackoff op opts = { calls := 1, sleeps := [], outcome := .error e } := by
  unfold retryWithBackoff
  cases hr : opts.retries with
  | zero => rw [retryFrom, hop]
  | succ n => rw [retryFrom, hop]; simp [hnr]

/-- C7 witness: under the Safe Browsing adapter's retry predicate, a
rate-limit error on the first attempt ends the run after one call with
that error. -/
theorem retry_non_retryable_single_attempt_witness :
    retryWithBackoff (fun _ => (.error .rateLimit : Except UpstreamError ℕ))
      { shouldRetry := gsbShouldRetry }
      = { calls := 1, sleeps := [], outcome := .error .rateLimit } :=
  retry_non_retryable_single_attempt _ _ .rateLimit rfl rfl

/-- Unrolled form of the retry loop when every attempt fails with a
retryable error: starting at `attempt` with `fuel` budget left, the
operation runs `fuel + 1` more times, sleeping
`initialDelayMs * factor ^ i` after attempt `i`, and ends with the
last attempt's error. -/
theorem retryFrom_always_failing {ε α : Type} (errs : ℕ → ε) (opts : RetryOptions ε)
    (hre : ∀ i, opts.shouldRetry (errs i) = true) :
    ∀ fuel attempt,
      retryFrom (fun i => (.error (errs i) : Except ε α)) opts attempt fuel
        = { calls := fuel + 1,
            sleeps := (List.range fuel).map
              (fun i => opts.initialDelayMs * opts.factor ^ (attempt + i)),
            outcome := .error (errs (attempt + fuel)) } := by
  intro fuel
  induction fuel with
  | zero => intro attempt; rw [retryFrom]; simp
  | succ n ih =>
    intro attempt
    rw [retryFrom]
    simp only [hre, if_true, ih (attempt + 1)]
    rw [List.range_succ_eq_map]
    simp only [List.map_cons, List.map_map, RetryTrace.mk.injEq, Nat.add_zero]
    refine ⟨trivial, ?_, ?_⟩
    · refine congrArg _ (List.map_congr_left ?_)
      intro i _
      have hexp : attempt + 1 + i = attempt + i.succ := by omega
      simp [Function.comp, hexp]
    · exact congrArg (fun j => Except.error (errs j)) (by omega)

/-- C8: an operation that fails with a retryable error on every attempt
is invoked `retries + 1` times in total, with a sleep of
`initialDelay * backoffFactor ^ attemptIndex` between consecutive
attempts, and once the budget is exhausted the last error is raised. -/
theorem retry_exhausts_budget_with_backoff {ε α : Type} (errs : ℕ → ε) (opts : RetryOptions ε)
    (hre : ∀ i, opts.shouldRetry (errs i) = true) :
    retryWithBackoff (fun i => (.error (errs i) : Except ε α)) opts
      = { calls := opts.retries + 1,
          sleeps := (List.range opts.retries).map
            (fun i => opts.initialDelayMs * opts.factor ^ i),
          outcome := .error (errs opts.retries) } := by
  have h := retryFrom_always_failing (α := α) errs opts hre opts.retries 0
  unfold retryWithBackoff
  rw [h]
  simp

/-- C8 witness: initialDelay 1000 ms, factor 2, a 3-attempt budget and
an always-transient failure give sleeps of 1000 ms then 2000 ms and
end with the last error after 3 calls. -/
theorem retry_exhausts_budget_witness :
    retryWithBackoff (fun _ => (.error .network : Except UpstreamError ℕ))
      { retries := 2, initialDelayMs := 1000, factor := 2, shouldRetry := gsbShouldRetry }
      = { calls := 3, sleeps := [1000, 2000], outcome := .error .network } := by
  rw [retry_exhausts_budget_with_backoff (fun _ => UpstreamError.network) _ (fun _ => rfl)]
  norm_num [List.range_succ]

/-- After `Map.set`, `Map.get` on the same key sees the written value. -/
theorem storeGet_storeSet_self (s : RateLimitStore) (k : String) (v : RateLimitEntry) :
    storeGet (storeSet s k v) k = some v := by
  unfold storeGet storeSet
  split
  next h =>
    induction s with
    | nil => simp at h
    | cons a l ih =>
      rw [List.map_cons]
      by_cases ha : (a.1 == k) = true
      · rw [if_pos ha, List.find?_cons_of_pos]
        · rfl
        · exact beq_self_eq_true k
      · rw [if_neg ha, List.find?_cons_of_neg]
        · apply ih
          rw [List.find?_cons_of_neg (p := fun p => p.1 == k) l ha] at h
          exact h
        · simpa using ha
  next h =>
    rw [List.find?_append]
    cases hfind : List.find? (fun p => p.1 == k) s with
    | none => simp [List.find?_cons]
    | some x => rw [hfind] at h; simp at h

/-- A first request from an unseen client key creates a fresh window
`{count := 1, resetTime := now + WINDOW}` and is allowed. -/
theorem rateLimitStep_empty (k : String) (now : ℕ) :
    rateLimitStep [] k now
      = ({ allowed := true, remaining := LIMIT - 1, limitHeader := LIMIT,
           resetHeader := now + WINDOW, retryAfter := none, limitBody := none },
         [(k, { count := 1, resetTime := now + WINDOW })]) := by
  simp [rateLimitStep, storeGet, storeSet, LIMIT]

/-- One request against a single-key store inside the live window:
the count increments in place and the decision follows the limit. -/
theorem rateLimitStep_singleton (k : String) (now c t : ℕ) (hle : now ≤ t) :
    rateLimitStep [(k, { count := c, resetTime := t })] k now
      = (if c + 1 > LIMIT then
          { allowed := false, remaining := LIMIT - (c + 1), limitHeader := LIMIT,
            resetHeader := t, retryAfter := some ((t - now + 999) / 1000),
            limitBody := some LIMIT }
         else
          { allowed := true, remaining := LIMIT - (c + 1), limitHeader := LIMIT,
            resetHeader := t, retryAfter := none, limitBody := none },
         [(k, { count := c + 1, resetTime := t })]) := by
  have hreset : ¬ t < now := by omega
  by_cases hc : c + 1 > LIMIT
  · simp [rateLimitStep, storeGet, storeSet, List.find?_cons, hreset, hc]
  · simp [rateLimitStep, storeGet, storeSet, List.find?_cons, hreset, hc]

set_option maxRecDepth 8000 in
/-- C9: per client key, the fixed window resets the counter and sets
`resetAt = now + windowSize` once `now > resetAt`, increments, and
allows iff the counter stays at most 60; concretely the 60th request
in one window is allowed with remaining 0, the 61st is rejected with
the 429 body carrying the limit and a retry-after duration, and after
the window has passed the next request is allowed again. -/
theorem ingress_fixed_window :
    (∀ store k now e, storeGet store k = some e → now ≤ e.resetTime →
      storeGet (rateLimitStep store k now).2 k
          = some { count := e.count + 1, resetTime := e.resetTime } ∧
      ((rateLimitStep store k now).1.allowed = true ↔ e.count + 1 ≤ LIMIT)) ∧
    (∀ store k now, storeGet store k = none →
      storeGet (rateLimitStep store k now).2 k
          = some { count := 1, resetTime := now + WINDOW } ∧
      (rateLimitStep store k now).1.allowed = true) ∧
    (∀ store k now e, storeGet store k = some e → e.resetTime < now →
      storeGet (rateLimitStep store k now).2 k
          = some { count := 1, resetTime := now + WINDOW } ∧
      (rateLimitStep store k now).1.allowed = true) ∧
    (rateLimitStep (rateLimitRun [] "1.2.3.4" 0 59) "1.2.3.4" 0).1
        = { allowed := true, remaining := 0, limitHeader := 60, resetHeader := 60000,
            retryAfter := none, limitBody := none } ∧
    (rateLimitStep (rateLimitRun [] "1.2.3.4" 0 60) "1.2.3.4" 0).1
        = { allowed := false, remaining := 0, limitHeader := 60, resetHeader := 60000,
            retryAfter := some 60, limitBody := some 60 } ∧
    (rateLimitStep (rateLimitRun [] "1.2.3.4" 0 61) "1.2.3.4" 60001).1.allowed = true := by
  refine ⟨?_, ?_, ?_, by decide, by decide, by decide⟩
  · intro store k now e hget hle
    have hnr : ¬ (e.resetTime < now) := by omega
    by_cases hc : e.count + 1 > LIMIT
    · simp [rateLimitStep, hget, hnr, hc, storeGet_storeSet_self]
      try omega
    · simp [rateLimitStep, hget, hnr, hc, storeGet_storeSet_self]
      try omega
  · intro store k now hget
    simp [rateLimitStep, hget, storeGet_storeSet_self, LIMIT]
  · intro store k now e hget hlt
    simp [rateLimitStep, hget, hlt, storeGet_storeSet_self, LIMIT]

/-- C9 witness: a live window with count 5 increments to 6 and allows
the request. -/
theorem ingress_fixed_window_witness :
    storeGet (rateLimitStep [("a", { count := 5, resetTime := 100 })] "a" 50).2 "a"
        = some { count := 6, resetTime := 100 } ∧
    (rateLimitStep [("a", { count := 5, resetTime := 100 })] "a" 50).1.allowed = true := by
  have h := (ingress_fixed_window).1 [("a", { count := 5, resetTime := 100 })] "a" 50
    { count := 5, resetTime := 100 } rfl (by decide)
  exact ⟨h.1, h.2.mpr (by decide)⟩

/-- `n` same-window requests against a single live window add `n` to
its counter and never create a second entry. -/
theorem rateLimitRun_count (now : ℕ) (k : String) : ∀ n c,
    rateLimitRun [(k, { count := c, resetTime := now + WINDOW })] k now n
      = [(k, { count := c + n, resetTime := now + WINDOW })] := by
  intro n
  induction n with
  | zero => intro c; simp [rateLimitRun]
  | succ m ih =>
    intro c
    rw [rateLimitRun, rateLimitStep_singleton k now c (now + WINDOW) (by omega)]
    show rateLimitRun [(k, { count := c + 1, resetTime := now + WINDOW })] k now m
        = [(k, { count := c + (m + 1), resetTime := now + WINDOW })]
    rw [ih (c + 1), show c + 1 + m = c + (m + 1) from by omega]

/-- C10: a request with neither `x-forwarded-for` nor `x-real-ip` gets
client key "unknown", and any number of such requests in one window
share a single map entry whose counter they jointly increment — one
shared 60-per-minute budget, not a window per caller. -/
theorem unknown_client_shared_window :
    getClientIp none none = "unknown" ∧
    ∀ now n, rateLimitRun [] (getClientIp none none) now (n + 1)
        = [("unknown", { count := n + 1, resetTime := now + WINDOW })] := by
  refine ⟨rfl, ?_⟩
  intro now n
  rw [show getClientIp none none = "unknown" from rfl, rateLimitRun, rateLimitStep_empty]
  show rateLimitRun [("unknown", { count := 1, resetTime := now + WINDOW })] "unknown" now n
      = [("unknown", { count := n + 1, resetTime := now + WINDOW })]
  rw [rateLimitRun_count now "unknown" n 1, show 1 + n = n + 1 from by omega]

end AdScanner
